import Mathlib

/-!
Verification development for the UBB bank-statement extraction engine
(`src/models.py`, `src/extractor.py`).

The Python code is shallowly embedded:
* `Decimal` values become `ℚ` (the validator only adds, subtracts, negates
  and compares, all exact on decimals, so `ℚ` is a faithful carrier);
* `datetime.date` becomes `DateD`, with `mkDate` performing the same
  range validation that the `date` constructor performs (raising becomes
  `Except.error`);
* Python `str` becomes `List Char` (`PyStr`);
* the concrete regular expressions of `extractor.py` become deterministic
  character scanners with the same matching semantics (greedy character
  classes here never overlap with the literal that follows them, so
  maximal munch coincides with the backtracking semantics; the two lazy
  groups are implemented by explicit shortest-extension search);
* code that can raise returns `Except String`.

Error and warning messages produced by `validate_balance` are abstracted
to their per-currency tags (`BalanceError`, `TurnoverWarning`); the
formatted message text is presentation only and no claim depends on it.
-/

set_option maxRecDepth 8192

namespace UBB

/-! ### Python string primitives -/

/-- Python strings, embedded as lists of characters. -/
abbrev PyStr := List Char

/-- The whitespace class used by `\s`, `str.strip()` and `str.split()`
(restricted to the ASCII whitespace actually occurring in statements). -/
def pySpace (c : Char) : Bool :=
  c = ' ' || c = '\t' || c = '\n' || c = '\r' || c = '\x0b' || c = '\x0c'

/-- The class `\d` (ASCII digits, the only digits in this document format). -/
def pyDigit (c : Char) : Bool := c.isDigit

/-- The character class `[\d,\.]` of the amount patterns. -/
def numChar (c : Char) : Bool := pyDigit c || c = ',' || c = '.'

/-- Uppercasing as `str.upper()` acts on the alphabets of this document
format: ASCII letters and Cyrillic а–я / ё. -/
def upperChar (c : Char) : Char :=
  if 'a' ≤ c ∧ c ≤ 'z' then Char.ofNat (c.toNat - 32)
  else if 'а' ≤ c ∧ c ≤ 'я' then Char.ofNat (c.toNat - 32)
  else if c = 'ё' then 'Ё'
  else c

/-- Python `str.upper()`. -/
def pyUpper (s : PyStr) : PyStr := s.map upperChar

/-- Tests whether the first argument is a prefix of the second (case-sensitive). -/
def isPrefixL : PyStr → PyStr → Bool
  | [], _ => true
  | _ :: _, [] => false
  | a :: as, b :: bs => a = b && isPrefixL as bs

/-- Python substring containment, `needle in haystack`. -/
def containsSub (needle : PyStr) : PyStr → Bool
  | [] => needle.isEmpty
  | c :: rest => isPrefixL needle (c :: rest) || containsSub needle rest

/-- Python `str.strip()`. -/
def stripL (s : PyStr) : PyStr :=
  ((s.dropWhile pySpace).reverse.dropWhile pySpace).reverse

/-- Python `" ".join(parts)`. -/
def joinSpace (parts : List PyStr) : PyStr :=
  List.intercalate [' '] parts

lemma dropWhile_len_le (p : Char → Bool) (l : List Char) :
    (l.dropWhile p).length ≤ l.length := by
  induction l with
  | nil => simp [List.dropWhile]
  | cons c t ih =>
    simp only [List.dropWhile]
    split
    · exact Nat.le_trans ih (Nat.le_succ _)
    · simp

/-- Worker for `pySplitWs`: `cur` holds the current token, reversed. -/
def pySplitWsAux (cur : PyStr) : PyStr → List PyStr
  | [] => if cur.isEmpty then [] else [cur.reverse]
  | c :: t =>
    if pySpace c then
      if cur.isEmpty then pySplitWsAux [] t
      else cur.reverse :: pySplitWsAux [] t
    else pySplitWsAux (c :: cur) t

/-- Python `str.split()` — split on whitespace runs, discarding empties. -/
def pySplitWs (s : PyStr) : List PyStr := pySplitWsAux [] s

/-- Python `str.split(None, 1)`. -/
def pySplitNone1 (s : PyStr) : List PyStr :=
  let s1 := s.dropWhile pySpace
  if s1.isEmpty then []
  else
    let tok := s1.takeWhile (fun d => !pySpace d)
    let r := (s1.dropWhile (fun d => !pySpace d)).dropWhile pySpace
    if r.isEmpty then [tok] else [tok, r]

/-- Python `int(s)` on a string of decimal digits. -/
def natOfDigits (s : PyStr) : Nat :=
  s.foldl (fun a c => a * 10 + (c.toNat - '0'.toNat)) 0

/-! ### Dates (`datetime.date`) -/

/-- A calendar date; `mkDate` enforces the `datetime.date` invariants. -/
structure DateD where
  year : Nat
  month : Nat
  day : Nat
deriving DecidableEq, Repr

def isLeapYear (y : Nat) : Bool :=
  y % 4 = 0 && (y % 100 ≠ 0 || y % 400 = 0)

def daysInMonth (y m : Nat) : Nat :=
  match m with
  | 1 => 31 | 2 => if isLeapYear y then 29 else 28 | 3 => 31
  | 4 => 30 | 5 => 31 | 6 => 30 | 7 => 31 | 8 => 31
  | 9 => 30 | 10 => 31 | 11 => 30 | 12 => 31
  | _ => 0

/-- Python `datetime.date(y, m, d)`: raises `ValueError` outside the valid range. -/
def mkDate (y m d : Nat) : Except String DateD :=
  if 1 ≤ y ∧ y ≤ 9999 then
    if 1 ≤ m ∧ m ≤ 12 then
      if 1 ≤ d ∧ d ≤ daysInMonth y m then .ok ⟨y, m, d⟩
      else .error "ValueError: day is out of range for month"
    else .error "ValueError: month must be in 1..12"
  else .error "ValueError: year is out of range"

/-! ### Decimals (`decimal.Decimal`) -/

/-- The error message used for `decimal.InvalidOperation`. -/
def decErr : String := "decimal.InvalidOperation"

/-- Magnitude part of a `Decimal` literal: `digits`, `digits.`, `.digits`
or `digits.digits`; anything else (empty, bare dot, two dots) raises. -/
def decimalMag (t : PyStr) : Except String ℚ :=
  let intPart := t.takeWhile pyDigit
  match t.dropWhile pyDigit with
  | [] =>
    if intPart.isEmpty then .error decErr
    else .ok (natOfDigits intPart : ℚ)
  | '.' :: frac =>
    if frac.all pyDigit then
      if intPart.isEmpty && frac.isEmpty then .error decErr
      else .ok ((natOfDigits intPart : ℚ) + (natOfDigits frac : ℚ) / (10 ^ frac.length))
    else .error decErr
  | _ => .error decErr

/-- Python `Decimal(s)` on the character set reachable from the amount patterns
(digits, dots, an optional leading minus after cleaning). -/
def decimalOfString (s : PyStr) : Except String ℚ :=
  match s with
  | '-' :: t => (decimalMag t).map Neg.neg
  | t => decimalMag t

/-- The method `UBBStatementExtractor._parse_decimal`: strip `','` and `' '`, then
convert with `Decimal` (which raises on a separator-only string). -/
def parse_decimal (value : PyStr) : Except String ℚ :=
  decimalOfString (value.filter (fun c => c ≠ ',' && c ≠ ' '))

/-! ### Data model (`models.py`) -/

inductive TransactionType where
  | SEPA_INCOMING | SEPA_OUTGOING | CARD_TRANSACTION | FEE
  | TRANSFER_FEE | INTERNAL_TRANSFER | CURRENCY_EXCHANGE | UNKNOWN
deriving DecidableEq, Repr

/-- A `Balance`: EUR/BGN pair. -/
structure Balance where
  eur : ℚ
  bgn : ℚ
deriving DecidableEq, Repr

/-- A `Turnover`: debit/credit pair. -/
structure Turnover where
  debit : Balance
  credit : Balance
deriving DecidableEq, Repr

def zeroBalance : Balance := ⟨0, 0⟩

def zeroTurnover : Turnover := ⟨zeroBalance, zeroBalance⟩

structure AccountHolder where
  code : PyStr
  name : PyStr
  address : PyStr
deriving DecidableEq, Repr

structure Period where
  from_date : DateD
  to_date : DateD
deriving DecidableEq, Repr

structure Counterparty where
  name : Option PyStr := none
  reference : Option PyStr := none
  bank : Option PyStr := none
  iban : Option PyStr := none
deriving DecidableEq, Repr

structure Transaction where
  posting_date : DateD
  value_date : DateD
  reference : PyStr
  type : TransactionType
  description : PyStr
  raw_description : PyStr
  counterparty : Option Counterparty := none
  amount : Balance
  is_debit : Bool
deriving DecidableEq, Repr

structure StatementInfo where
  bank : PyStr
  account_holder : AccountHolder
  iban : PyStr
  currency : PyStr
  period : Period
  statement_number : Nat
  statement_date : DateD
  opening_balance : Balance
  closing_balance : Balance
  turnover : Turnover
  accumulated_turnover : Turnover
deriving DecidableEq, Repr

/-- Per-currency tag of a balance-mismatch error message. -/
inductive BalanceError where
  | eur_mismatch | bgn_mismatch
deriving DecidableEq, Repr

/-- Tag of a turnover-mismatch warning message. -/
inductive TurnoverWarning where
  | debit_mismatch | credit_mismatch
deriving DecidableEq, Repr

structure ValidationResult where
  is_valid : Bool
  errors : List BalanceError := []
  warnings : List TurnoverWarning := []
  calculated_closing_eur : Option ℚ := none
  calculated_closing_bgn : Option ℚ := none
  expected_closing_eur : Option ℚ := none
  expected_closing_bgn : Option ℚ := none
  total_debit_eur : Option ℚ := none
  total_credit_eur : Option ℚ := none
  total_debit_bgn : Option ℚ := none
  total_credit_bgn : Option ℚ := none
deriving DecidableEq, Repr

structure BankStatement where
  statement : StatementInfo
  transactions : List Transaction
deriving DecidableEq, Repr

/-! ### Balance validator (`BankStatement.validate_balance`) -/

/-- Accumulator of the totals loop in `validate_balance`. -/
structure Totals where
  total_debit_eur : ℚ
  total_credit_eur : ℚ
  total_debit_bgn : ℚ
  total_credit_bgn : ℚ
deriving DecidableEq, Repr

/-- The `for tx in self.transactions` loop of `validate_balance`. -/
def txTotals (txs : List Transaction) : Totals :=
  txs.foldl
    (fun t tx =>
      if tx.is_debit then
        { t with
          total_debit_eur := t.total_debit_eur + tx.amount.eur
          total_debit_bgn := t.total_debit_bgn + tx.amount.bgn }
      else
        { t with
          total_credit_eur := t.total_credit_eur + tx.amount.eur
          total_credit_bgn := t.total_credit_bgn + tx.amount.bgn })
    ⟨0, 0, 0, 0⟩

/-- The method `BankStatement.validate_balance` (`models.py`, lines 113–197). -/
def BankStatement.validate_balance (self : BankStatement) : ValidationResult :=
  let t := txTotals self.transactions
  let opening := self.statement.opening_balance
  let calculated_closing_eur := opening.eur + t.total_credit_eur - t.total_debit_eur
  let calculated_closing_bgn := opening.bgn + t.total_credit_bgn - t.total_debit_bgn
  let expected := self.statement.closing_balance
  let eur_diff := |calculated_closing_eur - expected.eur|
  let bgn_diff := |calculated_closing_bgn - expected.bgn|
  let eur_tolerance : ℚ := 2/100
  let bgn_tolerance : ℚ := 10/100
  let errors : List BalanceError :=
    (if eur_diff > eur_tolerance then [.eur_mismatch] else []) ++
    (if bgn_diff > bgn_tolerance then [.bgn_mismatch] else [])
  let turnover := self.statement.turnover
  let debit_eur_diff := |t.total_debit_eur - turnover.debit.eur|
  let credit_eur_diff := |t.total_credit_eur - turnover.credit.eur|
  let warnings : List TurnoverWarning :=
    (if debit_eur_diff > eur_tolerance then [.debit_mismatch] else []) ++
    (if credit_eur_diff > eur_tolerance then [.credit_mismatch] else [])
  { is_valid := errors.isEmpty
    errors := errors
    warnings := warnings
    calculated_closing_eur := some calculated_closing_eur
    calculated_closing_bgn := some calculated_closing_bgn
    expected_closing_eur := some expected.eur
    expected_closing_bgn := some expected.bgn
    total_debit_eur := some t.total_debit_eur
    total_credit_eur := some t.total_credit_eur
    total_debit_bgn := some t.total_debit_bgn
    total_credit_bgn := some t.total_credit_bgn }

/-! ### Specification-side transaction sums -/

/-- Sum of the EUR amounts of the debit transactions. -/
def debitSumEur (txs : List Transaction) : ℚ :=
  ((txs.filter (fun tx => tx.is_debit)).map (fun tx => tx.amount.eur)).sum

/-- Sum of the EUR amounts of the credit transactions. -/
def creditSumEur (txs : List Transaction) : ℚ :=
  ((txs.filter (fun tx => !tx.is_debit)).map (fun tx => tx.amount.eur)).sum

/-- Sum of the BGN amounts of the debit transactions. -/
def debitSumBgn (txs : List Transaction) : ℚ :=
  ((txs.filter (fun tx => tx.is_debit)).map (fun tx => tx.amount.bgn)).sum

/-- Sum of the BGN amounts of the credit transactions. -/
def creditSumBgn (txs : List Transaction) : ℚ :=
  ((txs.filter (fun tx => !tx.is_debit)).map (fun tx => tx.amount.bgn)).sum

lemma txTotals_go (txs : List Transaction) : ∀ a : Totals,
    (txs.foldl
      (fun t tx =>
        if tx.is_debit then
          { t with
            total_debit_eur := t.total_debit_eur + tx.amount.eur
            total_debit_bgn := t.total_debit_bgn + tx.amount.bgn }
        else
          { t with
            total_credit_eur := t.total_credit_eur + tx.amount.eur
            total_credit_bgn := t.total_credit_bgn + tx.amount.bgn }) a) =
      ⟨a.total_debit_eur + debitSumEur txs, a.total_credit_eur + creditSumEur txs,
       a.total_debit_bgn + debitSumBgn txs, a.total_credit_bgn + creditSumBgn txs⟩ := by
  induction txs with
  | nil =>
    intro a
    simp [debitSumEur, creditSumEur, debitSumBgn, creditSumBgn]
  | cons tx txs ih =>
    intro a
    simp only [List.foldl_cons]
    by_cases h : tx.is_debit
    · rw [if_pos h, ih]
      simp [debitSumEur, creditSumEur, debitSumBgn, creditSumBgn, h, List.filter_cons]
      constructor <;> ring
    · rw [if_neg h, ih]
      simp [debitSumEur, creditSumEur, debitSumBgn, creditSumBgn, h, List.filter_cons]
      constructor <;> ring

lemma txTotals_eq (txs : List Transaction) :
    txTotals txs = ⟨debitSumEur txs, creditSumEur txs, debitSumBgn txs, creditSumBgn txs⟩ := by
  rw [txTotals, txTotals_go]
  simp

/-- C1: `validate_balance` computes `calculated_closing = opening +
credit_sum − debit_sum` per currency from the transactions split by
`is_debit`, returns `is_valid = true` exactly when the EUR difference is
within `0.02` and the BGN difference within `0.10`, and a breach of
either tolerance contributes the corresponding per-currency error entry
(making the result invalid). -/
theorem validate_balance_spec (s : BankStatement) :
    (s.validate_balance).calculated_closing_eur =
      some (s.statement.opening_balance.eur + creditSumEur s.transactions -
        debitSumEur s.transactions)
  ∧ (s.validate_balance).calculated_closing_bgn =
      some (s.statement.opening_balance.bgn + creditSumBgn s.transactions -
        debitSumBgn s.transactions)
  ∧ ((s.validate_balance).is_valid = true ↔
      |s.statement.opening_balance.eur + creditSumEur s.transactions -
        debitSumEur s.transactions - s.statement.closing_balance.eur| ≤ 2/100
    ∧ |s.statement.opening_balance.bgn + creditSumBgn s.transactions -
        debitSumBgn s.transactions - s.statement.closing_balance.bgn| ≤ 10/100)
  ∧ (BalanceError.eur_mismatch ∈ (s.validate_balance).errors ↔
      |s.statement.opening_balance.eur + creditSumEur s.transactions -
        debitSumEur s.transactions - s.statement.closing_balance.eur| > 2/100)
  ∧ (BalanceError.bgn_mismatch ∈ (s.validate_balance).errors ↔
      |s.statement.opening_balance.bgn + creditSumBgn s.transactions -
        debitSumBgn s.transactions - s.statement.closing_balance.bgn| > 10/100) := by
  simp only [BankStatement.validate_balance, txTotals_eq]
  refine ⟨trivial, trivial, ?_, ?_, ?_⟩ <;>
    split_ifs with h1 h2 <;>
      simp_all [List.isEmpty_iff, le_of_not_lt, not_le]

/-- C10: the turnover comparison of `validate_balance` looks at EUR only;
if both EUR sums are within tolerance of the reported EUR turnover, no
warning is produced, whatever the BGN sums are. -/
theorem turnover_warnings_eur_only (s : BankStatement)
    (h1 : |debitSumEur s.transactions - s.statement.turnover.debit.eur| ≤ 2/100)
    (h2 : |creditSumEur s.transactions - s.statement.turnover.credit.eur| ≤ 2/100) :
    (s.validate_balance).warnings = [] := by
  have g1 : ¬ (2/100 < |debitSumEur s.transactions - s.statement.turnover.debit.eur|) :=
    not_lt.mpr h1
  have g2 : ¬ (2/100 < |creditSumEur s.transactions - s.statement.turnover.credit.eur|) :=
    not_lt.mpr h2
  simp [BankStatement.validate_balance, txTotals_eq, g1, g2]

/-- A statement whose EUR transaction sums match the reported EUR turnover
exactly while the BGN debit sum is 500 BGN away from the reported BGN
debit turnover. -/
def stmtBgnOnlyMismatch : BankStatement :=
  { statement :=
      { bank := [], account_holder := ⟨[], [], []⟩, iban := [], currency := []
        period := ⟨⟨2026, 1, 1⟩, ⟨2026, 1, 31⟩⟩
        statement_number := 1, statement_date := ⟨2026, 1, 31⟩
        opening_balance := ⟨10, 500⟩, closing_balance := ⟨0, 0⟩
        turnover := ⟨⟨10, 0⟩, ⟨0, 0⟩⟩, accumulated_turnover := zeroTurnover }
    transactions :=
      [{ posting_date := ⟨2026, 1, 5⟩, value_date := ⟨2026, 1, 5⟩
         reference := [], type := .UNKNOWN, description := []
         raw_description := [], amount := ⟨10, 500⟩, is_debit := true }] }

/-- Witness for C10 at `stmtBgnOnlyMismatch`: the BGN debit sum differs
from the reported BGN debit turnover by 500, yet no warning is produced. -/
theorem turnover_warnings_eur_only_witness :
    |debitSumEur stmtBgnOnlyMismatch.transactions -
      stmtBgnOnlyMismatch.statement.turnover.debit.eur| ≤ 2/100
  ∧ |creditSumEur stmtBgnOnlyMismatch.transactions -
      stmtBgnOnlyMismatch.statement.turnover.credit.eur| ≤ 2/100
  ∧ |debitSumBgn stmtBgnOnlyMismatch.transactions -
      stmtBgnOnlyMismatch.statement.turnover.debit.bgn| = 500
  ∧ (stmtBgnOnlyMismatch.validate_balance).warnings = [] :=
  ⟨by with_unfolding_all decide, by with_unfolding_all decide, by with_unfolding_all decide,
    turnover_warnings_eur_only stmtBgnOnlyMismatch (by with_unfolding_all decide) (by with_unfolding_all decide)⟩

/-- A statement whose closing balance reconciles exactly and whose EUR
turnover matches, but whose reported BGN debit turnover is off by 500. -/
def stmtTurnoverBgnOff : BankStatement :=
  { statement :=
      { bank := [], account_holder := ⟨[], [], []⟩, iban := [], currency := []
        period := ⟨⟨2026, 1, 1⟩, ⟨2026, 1, 31⟩⟩
        statement_number := 1, statement_date := ⟨2026, 1, 31⟩
        opening_balance := ⟨0, 0⟩, closing_balance := ⟨10, 19⟩
        turnover := ⟨⟨0, 500⟩, ⟨10, 19⟩⟩, accumulated_turnover := zeroTurnover }
    transactions :=
      [{ posting_date := ⟨2026, 1, 5⟩, value_date := ⟨2026, 1, 5⟩
         reference := [], type := .UNKNOWN, description := []
         raw_description := [], amount := ⟨10, 19⟩, is_debit := false }] }

/-- Counterexample to C6 as stated: at `stmtTurnoverBgnOff` the BGN debit
sum differs from the reported BGN debit turnover by 500 (far beyond any
tolerance) and the closing balance reconciles, yet `validate_balance`
returns an *empty* warnings list — the claimed non-empty warnings list
fails for a BGN-only turnover mismatch. -/
theorem turnover_mismatch_warning_cex :
    |debitSumBgn stmtTurnoverBgnOff.transactions -
      stmtTurnoverBgnOff.statement.turnover.debit.bgn| = 500
  ∧ |stmtTurnoverBgnOff.statement.opening_balance.eur +
      creditSumEur stmtTurnoverBgnOff.transactions -
      debitSumEur stmtTurnoverBgnOff.transactions -
      stmtTurnoverBgnOff.statement.closing_balance.eur| ≤ 2/100
  ∧ |stmtTurnoverBgnOff.statement.opening_balance.bgn +
      creditSumBgn stmtTurnoverBgnOff.transactions -
      debitSumBgn stmtTurnoverBgnOff.transactions -
      stmtTurnoverBgnOff.statement.closing_balance.bgn| ≤ 10/100
  ∧ (stmtTurnoverBgnOff.validate_balance).is_valid = true
  ∧ (stmtTurnoverBgnOff.validate_balance).errors = []
  ∧ (stmtTurnoverBgnOff.validate_balance).warnings = [] := by
  refine ⟨by with_unfolding_all decide, by with_unfolding_all decide, by with_unfolding_all decide, ?_, ?_, ?_⟩ <;> with_unfolding_all decide

/-- C6 (amended): when the closing balance reconciles within tolerance
and an *EUR* debit or credit transaction sum differs from the reported
EUR turnover by more than `0.02`, `validate_balance` returns
`is_valid = true`, empty errors and a non-empty warnings list. -/
theorem turnover_mismatch_warning_only (s : BankStatement)
    (hc1 : |s.statement.opening_balance.eur + creditSumEur s.transactions -
      debitSumEur s.transactions - s.statement.closing_balance.eur| ≤ 2/100)
    (hc2 : |s.statement.opening_balance.bgn + creditSumBgn s.transactions -
      debitSumBgn s.transactions - s.statement.closing_balance.bgn| ≤ 10/100)
    (ht : 2/100 < |debitSumEur s.transactions - s.statement.turnover.debit.eur|
        ∨ 2/100 < |creditSumEur s.transactions - s.statement.turnover.credit.eur|) :
    (s.validate_balance).is_valid = true
  ∧ (s.validate_balance).errors = []
  ∧ (s.validate_balance).warnings ≠ [] := by
  have g1 := not_lt.mpr hc1
  have g2 := not_lt.mpr hc2
  rcases ht with ht | ht <;>
    simp [BankStatement.validate_balance, txTotals_eq, g1, g2, ht]

/-- A statement whose closing balance reconciles exactly but whose
reported EUR credit turnover is off by 15. -/
def stmtTurnoverEurOff : BankStatement :=
  { statement :=
      { bank := [], account_holder := ⟨[], [], []⟩, iban := [], currency := []
        period := ⟨⟨2026, 1, 1⟩, ⟨2026, 1, 31⟩⟩
        statement_number := 1, statement_date := ⟨2026, 1, 31⟩
        opening_balance := ⟨0, 0⟩, closing_balance := ⟨10, 19⟩
        turnover := ⟨⟨0, 0⟩, ⟨25, 19⟩⟩, accumulated_turnover := zeroTurnover }
    transactions :=
      [{ posting_date := ⟨2026, 1, 5⟩, value_date := ⟨2026, 1, 5⟩
         reference := [], type := .UNKNOWN, description := []
         raw_description := [], amount := ⟨10, 19⟩, is_debit := false }] }

/-- Witness for the amended C6 at `stmtTurnoverEurOff`. -/
theorem turnover_mismatch_warning_only_witness :
    (stmtTurnoverEurOff.validate_balance).is_valid = true
  ∧ (stmtTurnoverEurOff.validate_balance).errors = []
  ∧ (stmtTurnoverEurOff.validate_balance).warnings ≠ [] :=
  turnover_mismatch_warning_only stmtTurnoverEurOff (by with_unfolding_all decide) (by with_unfolding_all decide)
    (Or.inr (by with_unfolding_all decide))

/-- Decidable equality for `Except` results. -/
instance {e a : Type} [DecidableEq e] [DecidableEq a] : DecidableEq (Except e a) := by
  intro x y
  cases x <;> cases y
  case error.error v w =>
    exact if h : v = w then isTrue (by rw [h]) else isFalse (fun c => h (Except.error.inj c))
  case ok.ok v w =>
    exact if h : v = w then isTrue (by rw [h]) else isFalse (fun c => h (Except.ok.inj c))
  case error.ok v w => exact isFalse (fun c => Except.noConfusion c)
  case ok.error v w => exact isFalse (fun c => Except.noConfusion c)

/-! ### Regex scanners

Each concrete pattern of `extractor.py` becomes an anchored matcher
(`... MatchAt`), lifted to `re.search` semantics by trying every start
position from the left. -/

/-- Consume a literal prefix (case-sensitive). -/
def stripLit : PyStr → PyStr → Option PyStr
  | [], l => some l
  | _ :: _, [] => none
  | a :: as, b :: bs => if a = b then stripLit as bs else none

/-- Consume a literal prefix case-insensitively (`re.IGNORECASE`); the
literal is given upper-cased. -/
def stripLitCI : PyStr → PyStr → Option PyStr
  | [], l => some l
  | _ :: _, [] => none
  | a :: as, b :: bs => if a = upperChar b then stripLitCI as bs else none

/-- Semantics of `re.search`: try the anchored matcher at every position,
leftmost success wins. -/
def searchA {α : Type} (m : PyStr → Option α) : PyStr → Option α
  | [] => m []
  | c :: t =>
    match m (c :: t) with
    | some r => some r
    | none => searchA m t

/-- Worker for `searchLineStarts`: try the matcher right after each
newline. -/
def searchLineStartsAux {α : Type} (m : PyStr → Option α) : PyStr → Option α
  | [] => none
  | c :: t =>
    if c = '\n' then
      match m t with
      | some r => some r
      | none => searchLineStartsAux m t
    else searchLineStartsAux m t

/-- Semantics of `re.search` with `re.MULTILINE` on a `^`-anchored
pattern: try at position 0 and right after each newline, leftmost wins. -/
def searchLineStarts {α : Type} (m : PyStr → Option α) (l : PyStr) : Option α :=
  match m l with
  | some r => some r
  | none => searchLineStartsAux m l

def eurLit : PyStr := "EUR".data

def bgnLit : PyStr := "BGN".data

def slashLit : PyStr := "/".data

/-- The shared tail `\s*([\d,\.]+)\s*EUR\s*/\s*([\d,\.]+)\s*BGN` of the
balance/turnover patterns; returns the two captured groups and the
remainder after `BGN`. The character class `[\d,\.]` is disjoint from
whitespace and from `E`, so greedy matching is maximal munch. -/
def numPairAfter (l : PyStr) : Option (PyStr × PyStr × PyStr) :=
  let l1 := l.dropWhile pySpace
  let g1 := l1.takeWhile numChar
  if g1.isEmpty then none else
  match stripLit eurLit ((l1.dropWhile numChar).dropWhile pySpace) with
  | none => none
  | some l2 =>
    match stripLit slashLit (l2.dropWhile pySpace) with
    | none => none
    | some l3 =>
      let l4 := l3.dropWhile pySpace
      let g2 := l4.takeWhile numChar
      if g2.isEmpty then none else
      match stripLit bgnLit ((l4.dropWhile numChar).dropWhile pySpace) with
      | none => none
      | some l5 => some (g1, g2, l5)

def closingLit : PyStr := "Крайно салдо:".data

def openingLit : PyStr := "Начално салдо:".data

def debitColonLit : PyStr := "Дебит:".data

def creditColonLit : PyStr := "Кредит:".data

/-- Anchored `CLOSING_BALANCE_PATTERN`. -/
def closingMatchAt (l : PyStr) : Option (PyStr × PyStr) :=
  match stripLit closingLit l with
  | none => none
  | some r =>
    match numPairAfter r with
    | none => none
    | some (g1, g2, _) => some (g1, g2)

/-- Anchored `OPENING_BALANCE_PATTERN`. -/
def openingMatchAt (l : PyStr) : Option (PyStr × PyStr) :=
  match stripLit openingLit l with
  | none => none
  | some r =>
    match numPairAfter r with
    | none => none
    | some (g1, g2, _) => some (g1, g2)

/-- Anchored body of `TURNOVER_DEBIT_PATTERN` (without the `^`). -/
def debitMatchAt (l : PyStr) : Option (PyStr × PyStr) :=
  match stripLit debitColonLit l with
  | none => none
  | some r =>
    match numPairAfter r with
    | none => none
    | some (g1, g2, _) => some (g1, g2)

/-- Anchored body of `TURNOVER_CREDIT_PATTERN` / `ALL_CREDITS_PATTERN`. -/
def creditMatchAt (l : PyStr) : Option (PyStr × PyStr) :=
  match stripLit creditColonLit l with
  | none => none
  | some r =>
    match numPairAfter r with
    | none => none
    | some (g1, g2, _) => some (g1, g2)

/-- Anchored `ACCUMULATED_DEBIT_PATTERN`:
`BGN\s+Дебит:\s*([\d,\.]+)\s*EUR\s*/\s*([\d,\.]+)\s*BGN`. -/
def accDebitMatchAt (l : PyStr) : Option (PyStr × PyStr) :=
  match stripLit bgnLit l with
  | none => none
  | some r =>
    if (r.takeWhile pySpace).isEmpty then none else
    match stripLit debitColonLit (r.dropWhile pySpace) with
    | none => none
    | some r2 =>
      match numPairAfter r2 with
      | none => none
      | some (g1, g2, _) => some (g1, g2)

/-- Semantics of `ALL_CREDITS_PATTERN.finditer`: all matches, in order.
A new match of this pattern can never begin inside an earlier one (the
letter `К` cannot occur in the interior of a match), so `finditer`'s
non-overlapping left-to-right scan coincides with collecting the
anchored match at every position. -/
def findAllCredits : PyStr → List (PyStr × PyStr)
  | [] => []
  | c :: t =>
    match creditMatchAt (c :: t) with
    | some g => g :: findAllCredits t
    | none => findAllCredits t

/-! ### Footer extractor (`UBBStatementExtractor.extract_footer`) -/

/-- Result dictionary of `extract_footer`. -/
structure FooterInfo where
  closing_balance : Balance
  turnover : Turnover
  accumulated_turnover : Turnover
deriving DecidableEq, Repr

/-- The backward page scan of `extract_footer`: the last page containing
`Крайно салдо:`, else the physically last page, else the empty string. -/
def selectFooterPage (pages_text : List PyStr) : PyStr :=
  match pages_text.reverse.find? (fun p => containsSub closingLit p) with
  | some p => p
  | none => pages_text.reverse.headD []

/-- Closing-balance block of `extract_footer`. -/
def footerClosing (last_page : PyStr) : Except String Balance :=
  match searchA closingMatchAt last_page with
  | some (g1, g2) => do
    let e ← parse_decimal g1
    let b ← parse_decimal g2
    .ok ⟨e, b⟩
  | none => .ok zeroBalance

/-- Current-turnover block of `extract_footer`. -/
def footerTurnover (last_page : PyStr) : Except String Turnover :=
  match searchLineStarts debitMatchAt last_page,
        searchLineStarts creditMatchAt last_page with
  | some (d1, d2), some (c1, c2) => do
    let de ← parse_decimal d1
    let db ← parse_decimal d2
    let ce ← parse_decimal c1
    let cb ← parse_decimal c2
    .ok ⟨⟨de, db⟩, ⟨ce, cb⟩⟩
  | _, _ => .ok zeroTurnover

/-- Accumulated-turnover block of `extract_footer`: debit from the
`BGN`-anchored pattern, credit from the *second* credit match, zero
turnover if either is missing. -/
def footerAccumulated (last_page : PyStr) : Except String Turnover :=
  match searchA accDebitMatchAt last_page, (findAllCredits last_page)[1]? with
  | some (d1, d2), some (c1, c2) => do
    let de ← parse_decimal d1
    let db ← parse_decimal d2
    let ce ← parse_decimal c1
    let cb ← parse_decimal c2
    .ok ⟨⟨de, db⟩, ⟨ce, cb⟩⟩
  | _, _ => .ok zeroTurnover

/-- The method `UBBStatementExtractor.extract_footer` (lines 312–389). -/
def extract_footer (pages_text : List PyStr) : Except String FooterInfo := do
  let last_page := selectFooterPage pages_text
  let closing_balance ← footerClosing last_page
  let turnover ← footerTurnover last_page
  let accumulated_turnover ← footerAccumulated last_page
  .ok ⟨closing_balance, turnover, accumulated_turnover⟩

lemma extract_footer_accumulated (pages_text : List PyStr) (f : FooterInfo)
    (h : extract_footer pages_text = .ok f) :
    footerAccumulated (selectFooterPage pages_text) = .ok f.accumulated_turnover := by
  unfold extract_footer at h
  simp only [Bind.bind, Except.bind] at h
  cases hc : footerClosing (selectFooterPage pages_text) <;> rw [hc] at h
  · simp at h
  cases ht : footerTurnover (selectFooterPage pages_text) <;> rw [ht] at h
  · simp at h
  cases ha : footerAccumulated (selectFooterPage pages_text) <;> rw [ha] at h
  · simp at h
  · simp only [Except.ok.injEq] at h
    rw [← h]

/-- C2: on the selected summary page, the accumulated debit pair comes
from the `BGN`-anchored pattern and the accumulated credit pair is the
second of all credit matches on that page; if the anchored debit match is
absent or there are fewer than two credit matches, the accumulated
turnover is the zero turnover. -/
theorem footer_accumulated_spec (pages_text : List PyStr) (f : FooterInfo)
    (h : extract_footer pages_text = .ok f) :
    ((searchA accDebitMatchAt (selectFooterPage pages_text) = none ∨
      (findAllCredits (selectFooterPage pages_text)).length < 2) →
      f.accumulated_turnover = zeroTurnover)
  ∧ (∀ d1 d2 c0 c1 cs,
      searchA accDebitMatchAt (selectFooterPage pages_text) = some (d1, d2) →
      findAllCredits (selectFooterPage pages_text) = c0 :: c1 :: cs →
      ∃ qd qb qc qcb,
        parse_decimal d1 = .ok qd ∧ parse_decimal d2 = .ok qb ∧
        parse_decimal c1.1 = .ok qc ∧ parse_decimal c1.2 = .ok qcb ∧
        f.accumulated_turnover = ⟨⟨qd, qb⟩, ⟨qc, qcb⟩⟩) := by
  have hacc := extract_footer_accumulated pages_text f h
  unfold footerAccumulated at hacc
  constructor
  · intro hd
    rcases hd with hd | hd
    · rw [hd] at hacc
      cases hcr : (findAllCredits (selectFooterPage pages_text))[1]? <;>
        rw [hcr] at hacc <;> simp only [Except.ok.injEq] at hacc <;> exact hacc.symm
    · have hnone : (findAllCredits (selectFooterPage pages_text))[1]? = none := by
        apply List.getElem?_eq_none
        omega
      rw [hnone] at hacc
      cases hda : searchA accDebitMatchAt (selectFooterPage pages_text) <;>
        rw [hda] at hacc <;> simp only [Except.ok.injEq] at hacc <;> exact hacc.symm
  · intro d1 d2 c0 c1 cs hd hcs
    obtain ⟨c11, c12⟩ := c1
    rw [hd] at hacc
    have hsome : (findAllCredits (selectFooterPage pages_text))[1]? = some (c11, c12) := by
      rw [hcs]; simp
    rw [hsome] at hacc
    simp only [Bind.bind] at hacc
    cases h1 : parse_decimal d1 <;> rw [h1] at hacc <;>
      simp only [Except.bind] at hacc
    · exact absurd hacc (by simp)
    cases h2 : parse_decimal d2 <;> rw [h2] at hacc <;>
      simp only [Except.bind] at hacc
    · exact absurd hacc (by simp)
    cases h3 : parse_decimal c11 <;> rw [h3] at hacc <;>
      simp only [Except.bind] at hacc
    · exact absurd hacc (by simp)
    cases h4 : parse_decimal c12 <;> rw [h4] at hacc <;>
      simp only [Except.bind] at hacc
    · exact absurd hacc (by simp)
    simp only [Except.ok.injEq] at hacc
    exact ⟨_, _, _, _, rfl, rfl, rfl, rfl, hacc.symm⟩

/-- A realistic summary page: closing balance, then the two-column
turnover block (current pair first on each line, accumulated second). -/
def footerPageW : PyStr :=
  ("Крайно салдо: 1.00 EUR / 1.96 BGN\nОбороти: Натрупани обороти:\nДебит: 1.00 EUR / 1.96 BGN Дебит: 3.00 EUR / 5.87 BGN\nКредит: 2.00 EUR / 3.91 BGN Кредит: 4.00 EUR / 7.82 BGN").data

def accDebitEurW : PyStr := ['3', '.', '0', '0']

def accDebitBgnW : PyStr := ['5', '.', '8', '7']

def curCreditW : PyStr × PyStr := (['2', '.', '0', '0'], ['3', '.', '9', '1'])

def accCreditW : PyStr × PyStr := (['4', '.', '0', '0'], ['7', '.', '8', '2'])

/-- The footer extracted from `footerPageW`. -/
def footerW : FooterInfo :=
  ⟨⟨1, 49/25⟩, ⟨⟨1, 49/25⟩, ⟨2, 391/100⟩⟩, ⟨⟨3, 587/100⟩, ⟨4, 391/50⟩⟩⟩

/-- Witness for C2 at `footerPageW`: the accumulated turnover is built
from the anchored debit pair and the second credit match. -/
theorem footer_accumulated_spec_witness :
    ∃ qd qb qc qcb,
      parse_decimal accDebitEurW = .ok qd ∧ parse_decimal accDebitBgnW = .ok qb ∧
      parse_decimal accCreditW.1 = .ok qc ∧ parse_decimal accCreditW.2 = .ok qcb ∧
      footerW.accumulated_turnover = ⟨⟨qd, qb⟩, ⟨qc, qcb⟩⟩ :=
  (footer_accumulated_spec [footerPageW] footerW (by with_unfolding_all decide)).2
    accDebitEurW accDebitBgnW curCreditW accCreditW []
    (by with_unfolding_all decide) (by with_unfolding_all decide)

/-! ### Transaction-line patterns -/

/-- Anchored `TRANSACTION_DATE_PATTERN`
(`^(\d{2}/\d{2}/\d{2})\s+(\d{2}/\d{2})\s+`, used with `.match`): returns
the two date groups and the match end position. -/
def txDateMatch (l : PyStr) : Option (PyStr × PyStr × Nat) :=
  match l with
  | a :: b :: s1 :: c :: d :: s2 :: e :: f :: rest =>
    if pyDigit a && pyDigit b && s1 = '/' && pyDigit c && pyDigit d &&
       s2 = '/' && pyDigit e && pyDigit f then
      let w1 := (rest.takeWhile pySpace).length
      if w1 = 0 then none else
      match rest.dropWhile pySpace with
      | g :: h :: s3 :: i :: j :: rest2 =>
        if pyDigit g && pyDigit h && s3 = '/' && pyDigit i && pyDigit j then
          let w2 := (rest2.takeWhile pySpace).length
          if w2 = 0 then none else
          some ([a, b, s1, c, d, s2, e, f], [g, h, s3, i, j], 8 + w1 + 5 + w2)
        else none
      | _ => none
    else none
  | _ => none

/-- Optional minus sign followed by a nonempty `[\d,\.]+` run
(the group `-?[\d,\.]+` of `AMOUNT_PATTERN`, sign included). -/
def signNum : PyStr → Option (PyStr × PyStr)
  | [] => none
  | c :: t =>
    if c = '-' then
      match t.takeWhile numChar with
      | [] => none
      | g => some ('-' :: g, t.dropWhile numChar)
    else
      match (c :: t).takeWhile numChar with
      | [] => none
      | g => some (g, (c :: t).dropWhile numChar)

/-- Anchored `AMOUNT_PATTERN`
(`(-?[\d,\.]+)\s*EUR\s*/\s*(-?[\d,\.]+)\s*BGN\s*$`): succeeds only when
the match extends to the end of the line. -/
def amountAt (l : PyStr) : Option (PyStr × PyStr) :=
  match signNum l with
  | none => none
  | some (g1, r1) =>
    match stripLit eurLit (r1.dropWhile pySpace) with
    | none => none
    | some r2 =>
      match stripLit slashLit (r2.dropWhile pySpace) with
      | none => none
      | some r3 =>
        match signNum (r3.dropWhile pySpace) with
        | none => none
        | some (g2, r4) =>
          match stripLit bgnLit (r4.dropWhile pySpace) with
          | none => none
          | some r5 =>
            if (r5.dropWhile pySpace).isEmpty then some (g1, g2) else none

/-- Worker for `amountSearch`, tracking the current start index. -/
def amountSearchAux (i : Nat) : PyStr → Option (Nat × PyStr × PyStr)
  | [] =>
    match amountAt [] with
    | some g => some (i, g.1, g.2)
    | none => none
  | c :: t =>
    match amountAt (c :: t) with
    | some g => some (i, g.1, g.2)
    | none => amountSearchAux (i + 1) t

/-- Semantics of `AMOUNT_PATTERN.search`: leftmost match with its start
index and the two captured groups. -/
def amountSearch (l : PyStr) : Option (Nat × PyStr × PyStr) := amountSearchAux 0 l

def mezhdinnoLit : PyStr := "Междинно салдо".data

def stranitsaLit : PyStr := "Страница".data

def obbLit : PyStr := "ОББ Извлечение".data

def schetLit : PyStr := "Счет. Дата".data

/-- The line filter of the no-amount-on-start-line branch (lines 441–443). -/
def isBoilerplate1 (l : PyStr) : Bool :=
  isPrefixL mezhdinnoLit l || isPrefixL stranitsaLit l || containsSub obbLit l

/-- The line filter of the amount-on-start-line branch (lines 463–466);
it additionally skips the column-header line. -/
def isBoilerplate2 (l : PyStr) : Bool :=
  isPrefixL mezhdinnoLit l || isPrefixL stranitsaLit l || containsSub obbLit l ||
    isPrefixL schetLit l

/-- Result of the amount-seeking inner loop (lines 420–445): description
lines collected, the amount groups if found, and the unconsumed lines. -/
structure CollectOut where
  desc : List PyStr
  amt : Option (PyStr × PyStr)
  rest : List PyStr
deriving DecidableEq, Repr

/-- The inner loop of the no-amount-on-start-line branch: consume lines
until a new transaction start (stop, unconsumed) or an amount line
(consume it, keep the text before the amount if nonempty), appending
non-boilerplate lines to the description. -/
def collectNoAmt : List PyStr → CollectOut
  | [] => ⟨[], none, []⟩
  | l :: rest =>
    if (txDateMatch l).isSome then ⟨[], none, l :: rest⟩
    else
      match amountSearch l with
      | some (st, g1, g2) =>
        let before_amount := stripL (l.take st)
        ⟨if before_amount.isEmpty then [] else [before_amount], some (g1, g2), rest⟩
      | none =>
        let r := collectNoAmt rest
        if isBoilerplate1 l then ⟨r.desc, r.amt, r.rest⟩
        else ⟨l :: r.desc, r.amt, r.rest⟩

/-- Result of the trailing-lines loop (lines 453–471). -/
structure TrailOut where
  desc : List PyStr
  rest : List PyStr
deriving DecidableEq, Repr

/-- The inner loop of the amount-on-start-line branch: consume lines
until the next transaction start, appending non-boilerplate lines. -/
def collectTrailing : List PyStr → TrailOut
  | [] => ⟨[], []⟩
  | l :: rest =>
    if (txDateMatch l).isSome then ⟨[], l :: rest⟩
    else if isBoilerplate2 l then
      let r := collectTrailing rest
      ⟨r.desc, r.rest⟩
    else
      let r := collectTrailing rest
      ⟨l :: r.desc, r.rest⟩

/-! ### Type classifier (`_detect_transaction_type`) -/

def kwSepaIn : PyStr := "СЕПА ПОЛУЧЕН".data

def kwOutFx : PyStr := "ИЗХОДЯЩ ВАЛУТЕН ПРЕВОД".data

def kwOut : PyStr := "ИЗХОДЯЩ".data

def kwCard : PyStr := "КАРТОВА ТРАНЗАКЦИЯ".data

def kwFeeCollected : PyStr := "СЪБРАНА ТАКСА ИЛИ КОМИСИОНА".data

def kwFeeOut : PyStr := "ТАКСА ИЗХ.".data

def kwFee : PyStr := "ТАКСА".data

def kwTransfer : PyStr := "ПРЕВОД".data

def kwSellFx : PyStr := "ПРОДАЖБА НА ВАЛУТА".data

def kwBuyFx : PyStr := "ПОКУПКА НА ВАЛУТА".data

/-- The method `UBBStatementExtractor._detect_transaction_type`
(lines 114–133): ordered keyword rules on the upper-cased description. -/
def detect_transaction_type (description : PyStr) : TransactionType :=
  let desc_upper := pyUpper description
  if containsSub kwSepaIn desc_upper then .SEPA_INCOMING
  else if containsSub kwOutFx desc_upper || containsSub kwOut desc_upper then
    .SEPA_OUTGOING
  else if containsSub kwCard desc_upper then .CARD_TRANSACTION
  else if containsSub kwFeeCollected desc_upper then .FEE
  else if containsSub kwFeeOut desc_upper || containsSub kwFee desc_upper then
    .TRANSFER_FEE
  else if containsSub kwTransfer desc_upper then .INTERNAL_TRANSFER
  else if containsSub kwSellFx desc_upper || containsSub kwBuyFx desc_upper then
    .CURRENCY_EXCHANGE
  else .UNKNOWN

/-! ### Counterparty extractor (`_extract_counterparty`) -/

def otBankaLit : PyStr := "ОТ БАНКА".data

/-- The class `[:\s]`. -/
def sepColon (c : Char) : Bool := c = ':' || pySpace c

/-- Anchored `ОТ БАНКА\s*[:\s]+(.+)` with `re.IGNORECASE` (the group is
captured from the original line; lines contain no newline). The combined
greedy `\s*[:\s]+` consumes the maximal run of `[:\s]` characters,
backing off one character when needed so that `(.+)` stays nonempty. -/
def bankMatchAt (l : PyStr) : Option PyStr :=
  match stripLitCI otBankaLit l with
  | none => none
  | some r =>
    let run := (r.takeWhile sepColon).length
    if run = 0 then none
    else if run < r.length then some (r.drop run)
    else if 2 ≤ run then some (r.drop (run - 1))
    else none

/-- Anchored `BG\d{2}[A-Z]{4}\d{10,16}` (the embedded-IBAN pattern). -/
def ibanBodyMatchAt (l : PyStr) : Option PyStr :=
  match l with
  | 'B' :: 'G' :: d1 :: d2 :: a1 :: a2 :: a3 :: a4 :: rest =>
    if pyDigit d1 && pyDigit d2 && a1.isUpper && a2.isUpper &&
       a3.isUpper && a4.isUpper then
      let ds := rest.takeWhile pyDigit
      if ds.length < 10 then none
      else some ('B' :: 'G' :: d1 :: d2 :: a1 :: a2 :: a3 :: a4 :: ds.take 16)
    else none
  | _ => none

/-- Tests `^(PO|SI|VI|R1)\d{6}$`. -/
def posCodeMatch (l : PyStr) : Bool :=
  match l with
  | p1 :: p2 :: rest =>
    ((p1 = 'P' && p2 = 'O') || (p1 = 'S' && p2 = 'I') ||
     (p1 = 'V' && p2 = 'I') || (p1 = 'R' && p2 = '1')) &&
      rest.length = 6 && rest.all pyDigit
  | _ => false

/-- Tests `-\d+-\d+$` after a consumed prefix. -/
def dashDigitsTail (l : PyStr) : Bool :=
  match l with
  | '-' :: r =>
    !(r.takeWhile pyDigit).isEmpty &&
    (match r.dropWhile pyDigit with
     | '-' :: r2 => !r2.isEmpty && r2.all pyDigit
     | _ => false)
  | _ => false

/-- Tests `^\d{8}-\d+-\d+$`. -/
def terminalIdMatch (l : PyStr) : Bool :=
  (l.take 8).length = 8 && (l.take 8).all pyDigit && dashDigitsTail (l.drop 8)

/-- Tests `^\d{8}-[A-Z]\d+-\d+$`. -/
def terminalIdAlphaMatch (l : PyStr) : Bool :=
  (l.take 8).length = 8 && (l.take 8).all pyDigit &&
  (match l.drop 8 with
   | '-' :: a :: r =>
     a.isUpper &&
     !(r.takeWhile pyDigit).isEmpty &&
     (match r.dropWhile pyDigit with
      | '-' :: r2 => !r2.isEmpty && r2.all pyDigit
      | _ => false)
   | _ => false)

/-- Tests `^\d{4}X\d{4}-\d+-\d+$`. -/
def cardRefMatch (l : PyStr) : Bool :=
  (l.take 4).length = 4 && (l.take 4).all pyDigit &&
  (match l.drop 4 with
   | 'X' :: rest =>
     (rest.take 4).length = 4 && (rest.take 4).all pyDigit &&
       dashDigitsTail (rest.drop 4)
   | _ => false)

/-- The skip-list `SKIP_COUNTERPARTY_PATTERNS` (every pattern is anchored
`^...$`, so `.match` decides the whole line). -/
def shouldSkipCounterparty (l : PyStr) : Bool :=
  l == kwCard || posCodeMatch l || terminalIdMatch l || terminalIdAlphaMatch l ||
    cardRefMatch l || l == kwTransfer

/-- The class `[A-Z0-9\s\-]` (first block of the merchant pattern). -/
def class1Card (c : Char) : Bool := c.isUpper || pyDigit c || pySpace c || c = '-'

/-- The class `[A-Z\s\.]` (second block of the merchant pattern). -/
def class2Card (c : Char) : Bool := c.isUpper || pySpace c || c = '.'

def countriesCard : List PyStr := ["BG".data, "RO".data, "GR".data, "TR".data]

/-- All ways to split a list as `l = a ++ b`. -/
def allSplits : PyStr → List (PyStr × PyStr)
  | [] => [([], [])]
  | c :: t => ([], c :: t) :: (allSplits t).map (fun p => (c :: p.1, p.2))

/-- Tests `^[A-Z0-9\s\-]+-[A-Z\s\.]+-(BG|RO|GR|TR)$`: the first class
contains `-`, so matching is a genuine existential over split points —
only whether *some* assignment matches is observable. -/
def cardNameMatch (l : PyStr) : Bool :=
  (allSplits l).any (fun p =>
    !p.1.isEmpty && p.1.all class1Card &&
    (match p.2 with
     | '-' :: rest2 =>
       (allSplits rest2).any (fun q =>
         !q.1.isEmpty && q.1.all class2Card &&
         (match q.2 with
          | '-' :: cc => countriesCard.contains cc
          | _ => false))
     | _ => false))

/-- Search for `[ФF][\.\s]` with `re.IGNORECASE`. -/
def fDotSearch : PyStr → Bool
  | c1 :: c2 :: rest =>
    ((upperChar c1 = 'Ф' || upperChar c1 = 'F') && (c2 = '.' || pySpace c2)) ||
      fDotSearch (c2 :: rest)
  | _ => false

/-- Tests `^\d+$`. -/
def allDigitsMatch (l : PyStr) : Bool := !l.isEmpty && l.all pyDigit

/-- Tests `^\d{7,}$`. -/
def longNumericMatch (l : PyStr) : Bool := 7 ≤ l.length && l.all pyDigit

/-- The character class of the purely-numeric/punctuation filter:
digits, dash, slash, dot and whitespace. -/
def numPunctChar (c : Char) : Bool :=
  pyDigit c || c = '-' || c = '/' || c = '.' || pySpace c

/-- Tests the full-line pattern over `numPunctChar` (one or more). -/
def numPunctMatch (l : PyStr) : Bool := !l.isEmpty && l.all numPunctChar

/-- The four local variables of the `_extract_counterparty` loop. -/
structure CpState where
  name : Option PyStr := none
  reference : Option PyStr := none
  bank : Option PyStr := none
  iban : Option PyStr := none
deriving DecidableEq, Repr

/-- Python truthiness of `None`-or-string values. -/
def truthyOpt : Option PyStr → Bool
  | none => false
  | some s => !s.isEmpty

/-- One iteration of the `_extract_counterparty` line loop
(lines 163–220), in the source's rule order with its `continue` /
fall-through structure. -/
def cpStep (tx_type : TransactionType) (st : CpState) (line0 : PyStr) : CpState :=
  let line := stripL line0
  if line.isEmpty then st
  else if containsSub otBankaLit (pyUpper line) then
    match searchA bankMatchAt line with
    | some g => { st with bank := some (stripL g) }
    | none => st
  else
    match searchA ibanBodyMatchAt line with
    | some g => { st with iban := some g }
    | none =>
      if shouldSkipCounterparty line then st
      else if longNumericMatch line then
        if !truthyOpt st.reference then { st with reference := some line } else st
      else if tx_type = .CARD_TRANSACTION && cardNameMatch line then
        if !truthyOpt st.name then { st with name := some line } else st
      else if !truthyOpt st.name && 2 < line.length && !numPunctMatch line then
        { st with name := some line }
      else if !truthyOpt st.reference && truthyOpt st.name then
        if fDotSearch line then { st with reference := some line }
        else if allDigitsMatch line then { st with reference := some line }
        else st
      else st

/-- The method `UBBStatementExtractor._extract_counterparty`
(lines 146–224): fold the rules over all lines but the first, then
return `None` unless some field is truthy. -/
def extract_counterparty (description_lines : List PyStr)
    (tx_type : TransactionType) : Option Counterparty :=
  let st := (description_lines.drop 1).foldl (cpStep tx_type) {}
  if truthyOpt st.name || truthyOpt st.reference || truthyOpt st.bank ||
     truthyOpt st.iban then
    some ⟨st.name, st.reference, st.bank, st.iban⟩
  else none

/-! ### Date parsing methods -/

def monthPairs : List (PyStr × Nat) :=
  [("ЯНУ".data, 1), ("ФЕВ".data, 2), ("МАР".data, 3), ("АПР".data, 4),
   ("МАЙ".data, 5), ("ЮНИ".data, 6), ("ЮЛИ".data, 7), ("АВГ".data, 8),
   ("СЕП".data, 9), ("ОКТ".data, 10), ("НОЕ".data, 11), ("ДЕК".data, 12)]

/-- The method `_parse_month`: `MONTH_MAP.get(month_str.upper(), 1)`. -/
def parse_month (month_str : PyStr) : Nat :=
  match monthPairs.find? (fun p => p.1 == pyUpper month_str) with
  | some p => p.2
  | none => 1

/-- The method `_parse_date` (day / Bulgarian month abbreviation / year). -/
def parse_date (day month year : PyStr) : Except String DateD :=
  mkDate (natOfDigits year) (parse_month month) (natOfDigits day)

/-- The method `_parse_short_date` (`DD/MM` plus an explicit year). -/
def parse_short_date (date_str : PyStr) (year : Nat) : Except String DateD :=
  let parts := date_str.splitOn '/'
  mkDate year (natOfDigits (parts.getD 1 [])) (natOfDigits (parts.getD 0 []))

/-- The method `_parse_posting_date` (`DD/MM/YY`): the year is computed
as `2000 + YY`, with no reference to the statement period. -/
def parse_posting_date (date_str : PyStr) : Except String DateD :=
  let parts := date_str.splitOn '/'
  mkDate (2000 + natOfDigits (parts.getD 2 [])) (natOfDigits (parts.getD 1 []))
    (natOfDigits (parts.getD 0 []))

/-! ### Transaction construction and the scanning loop -/

/-- Construction of one `Transaction` record (lines 476–515 of
`extract_transactions`), with the fallible parses in source order. -/
def buildTransaction (posting_date_str value_date_str : PyStr)
    (description_lines : List PyStr) (g1 g2 : PyStr) :
    Except String Transaction := do
  let posting_date ← parse_posting_date posting_date_str
  let value_date ← parse_short_date value_date_str posting_date.year
  let full_desc := joinSpace description_lines
  let desc_parts := pySplitNone1 (description_lines.headD [])
  let reference := desc_parts.headD []
  let description := (desc_parts.drop 1).headD []
  let eur_amount ← parse_decimal g1
  let bgn_amount ← parse_decimal g2
  let is_debit := decide (eur_amount < 0)
  let amount : Balance := ⟨|eur_amount|, |bgn_amount|⟩
  let trans_type := detect_transaction_type full_desc
  let counterparty := extract_counterparty description_lines trans_type
  .ok { posting_date, value_date, reference, type := trans_type, description,
        raw_description := full_desc, counterparty, amount, is_debit }

lemma collectNoAmt_rest_le (ls : List PyStr) :
    (collectNoAmt ls).rest.length ≤ ls.length := by
  induction ls with
  | nil => simp [collectNoAmt]
  | cons l rest ih =>
    simp only [collectNoAmt]
    split
    · simp
    · split
      · simp only [List.length_cons]
        omega
      · split <;> simp only [List.length_cons] <;> exact Nat.le_succ_of_le ih

lemma collectTrailing_rest_le (ls : List PyStr) :
    (collectTrailing ls).rest.length ≤ ls.length := by
  induction ls with
  | nil => simp [collectTrailing]
  | cons l rest ih =>
    simp only [collectTrailing]
    split
    · simp
    · split <;> simp only [List.length_cons] <;> exact Nat.le_succ_of_le ih

/-- The main scanning loop of `extract_transactions` over one page's
lines (lines 399–517): lines before a transaction start are skipped; a
start line with no amount enters the amount-seeking loop (the candidate
is dropped when no amount is found); a start line that already carries
the amount closes immediately and then collects trailing lines. -/
def extractTxLoop : List PyStr → Except String (List Transaction)
  | [] => .ok []
  | line :: rest =>
    match txDateMatch line with
    | none => extractTxLoop rest
    | some (pdStr, vdStr, endIdx) =>
      match amountSearch line with
      | none =>
        match (collectNoAmt rest).amt with
        | none => extractTxLoop (collectNoAmt rest).rest
        | some (g1, g2) => do
          let tx ← buildTransaction pdStr vdStr
            (line.drop endIdx :: (collectNoAmt rest).desc) g1 g2
          let txs ← extractTxLoop (collectNoAmt rest).rest
          .ok (tx :: txs)
      | some (st, g1, g2) => do
        let tx ← buildTransaction pdStr vdStr
          (stripL ((line.take st).drop endIdx) :: (collectTrailing rest).desc) g1 g2
        let txs ← extractTxLoop (collectTrailing rest).rest
        .ok (tx :: txs)
termination_by ls => ls.length
decreasing_by
  all_goals simp only [List.length_cons]
  all_goals first
    | omega
    | exact Nat.lt_succ_of_le (collectNoAmt_rest_le rest)
    | exact Nat.lt_succ_of_le (collectTrailing_rest_le rest)

/-- The method `UBBStatementExtractor.extract_transactions` (lines
391–519). The `statement_year` parameter is accepted but never used,
exactly as in the source. -/
def extract_transactions (statement_year : Nat) (pages_text : List PyStr) :
    Except String (List Transaction) :=
  pages_text.foldlM
    (fun acc page_text => do
      let txs ← extractTxLoop (page_text.splitOn '\n')
      pure (acc ++ txs))
    []

/-! ### Header extractor (`UBBStatementExtractor.extract_header`) -/

def ibanColonLit : PyStr := "IBAN:".data

/-- Word characters for `\w`: ASCII letters/digits/underscore plus the
Cyrillic letters of this document format. -/
def pyWordChar (c : Char) : Bool :=
  c.isAlpha || pyDigit c || c = '_' || ('А' ≤ c ∧ c ≤ 'я') || c = 'Ё' || c = 'ё'

/-- Anchored `IBAN_PATTERN` (`IBAN:\s*(BG\w+)`). -/
def ibanMatchAt (l : PyStr) : Option PyStr :=
  match stripLit ibanColonLit l with
  | none => none
  | some r =>
    match r.dropWhile pySpace with
    | 'B' :: 'G' :: rest =>
      match rest.takeWhile pyWordChar with
      | [] => none
      | g => some ('B' :: 'G' :: g)
    | _ => none

def valutaLit : PyStr := "Валута".data

/-- Anchored `CURRENCY_PATTERN` (`Валута\s+([A-Z]{3})`). -/
def currencyMatchAt (l : PyStr) : Option PyStr :=
  match stripLit valutaLit l with
  | none => none
  | some r =>
    if (r.takeWhile pySpace).isEmpty then none else
    match r.dropWhile pySpace with
    | a :: b :: c :: _ =>
      if a.isUpper && b.isUpper && c.isUpper then some [a, b, c] else none
    | _ => none

/-- Exactly `n` ASCII digits, returning them and the remainder. -/
def takeDigitsN (n : Nat) (l : PyStr) : Option (PyStr × PyStr) :=
  let g := l.take n
  if g.length = n && g.all pyDigit then some (g, l.drop n) else none

/-- A nonempty `\s+` run (maximal munch; every following pattern element
is disjoint from whitespace). -/
def reqSpaces (l : PyStr) : Option PyStr :=
  if (l.takeWhile pySpace).isEmpty then none else some (l.dropWhile pySpace)

/-- A nonempty `\w+` run (maximal munch; the element following it is
always whitespace, disjoint from `\w`, so the boundary is forced). -/
def takeWord (l : PyStr) : Option (PyStr × PyStr) :=
  match l.takeWhile pyWordChar with
  | [] => none
  | g => some (g, l.dropWhile pyWordChar)

def periodLit : PyStr := "Период на извлечението:".data

def otLit : PyStr := "ОТ".data

def doLit : PyStr := "ДО".data

/-- Anchored `PERIOD_PATTERN`: the six captured groups. -/
def periodMatchAt (l : PyStr) :
    Option (PyStr × PyStr × PyStr × PyStr × PyStr × PyStr) :=
  match stripLit periodLit l with
  | none => none
  | some r0 =>
  match stripLit otLit (r0.dropWhile pySpace) with
  | none => none
  | some r1 =>
  match reqSpaces r1 with
  | none => none
  | some r2 =>
  match takeDigitsN 2 r2 with
  | none => none
  | some (d1, r3) =>
  match reqSpaces r3 with
  | none => none
  | some r4 =>
  match takeWord r4 with
  | none => none
  | some (m1, r5) =>
  match reqSpaces r5 with
  | none => none
  | some r6 =>
  match takeDigitsN 4 r6 with
  | none => none
  | some (y1, r7) =>
  match reqSpaces r7 with
  | none => none
  | some r8 =>
  match stripLit doLit r8 with
  | none => none
  | some r9 =>
  match reqSpaces r9 with
  | none => none
  | some r10 =>
  match takeDigitsN 2 r10 with
  | none => none
  | some (d2, r11) =>
  match reqSpaces r11 with
  | none => none
  | some r12 =>
  match takeWord r12 with
  | none => none
  | some (m2, r13) =>
  match reqSpaces r13 with
  | none => none
  | some r14 =>
  match takeDigitsN 4 r14 with
  | none => none
  | some (y2, _) => some (d1, m1, y1, d2, m2, y2)

def stmtNumLit : PyStr := "Пореден номер / Дата:".data

/-- Anchored `STATEMENT_NUM_PATTERN`
(`Пореден номер / Дата:\s*(\d+)\s*/\s*(\d{2})\s+(\w+)\s+(\d{4})`). -/
def stmtMatchAt (l : PyStr) : Option (PyStr × PyStr × PyStr × PyStr) :=
  match stripLit stmtNumLit l with
  | none => none
  | some r0 =>
  match (r0.dropWhile pySpace).takeWhile pyDigit with
  | [] => none
  | n =>
  match stripLit slashLit (((r0.dropWhile pySpace).dropWhile pyDigit).dropWhile pySpace) with
  | none => none
  | some r1 =>
  match takeDigitsN 2 (r1.dropWhile pySpace) with
  | none => none
  | some (d, r2) =>
  match reqSpaces r2 with
  | none => none
  | some r3 =>
  match takeWord r3 with
  | none => none
  | some (m, r4) =>
  match reqSpaces r4 with
  | none => none
  | some r5 =>
  match takeDigitsN 4 r5 with
  | none => none
  | some (y, _) => some (n, d, m, y)

def holderLit : PyStr := "Титуляр на сметката".data

def daoLit : PyStr := "ДАО".data

/-- The tail alternation `(?:\s+\d{4}|\s+ДАО)` of the account-holder
pattern. -/
def holderTail (l : PyStr) : Bool :=
  (match reqSpaces l with
   | some r => (takeDigitsN 4 r).isSome
   | none => false) ||
  (match reqSpaces l with
   | some r => isPrefixL daoLit r
   | none => false)

/-- The lazy group `(.+?)` of the account-holder pattern: shortest
nonempty newline-free extension after which the tail matches. -/
def holderLazy (acc : PyStr) : PyStr → Option PyStr
  | [] => none
  | c :: rest =>
    if c = '\n' then none
    else if holderTail rest then some (acc ++ [c])
    else holderLazy (acc ++ [c]) rest

/-- Backtracking over the greedy `\s+` before the lazy group: the
longest whitespace run is preferred, backing off so the rest can match
(whitespace can fall into the lazy `(.+?)` group). -/
def holderTryW (r : PyStr) : Nat → Option PyStr
  | 0 => none
  | w + 1 =>
    match holderLazy [] (r.drop (w + 1)) with
    | some g => some g
    | none => holderTryW r w

/-- Anchored `ACCOUNT_HOLDER_PATTERN`
(`Титуляр на сметката\s+(\d+)\s+(.+?)(?:\s+\d{4}|\s+ДАО)`). -/
def holderMatchAt (l : PyStr) : Option (PyStr × PyStr) :=
  match stripLit holderLit l with
  | none => none
  | some r0 =>
  match reqSpaces r0 with
  | none => none
  | some r1 =>
  match r1.takeWhile pyDigit with
  | [] => none
  | code =>
    let r2 := r1.dropWhile pyDigit
    let w := (r2.takeWhile pySpace).length
    match holderTryW r2 w with
    | none => none
    | some g2 => some (code, g2)

def adresLit : PyStr := "Адрес".data

/-- The lazy group of `ADDRESS_PATTERN` under `re.DOTALL`: shortest
nonempty extension after which `IBAN:` follows (the lookahead). -/
def lazyUntilIban (acc : PyStr) : PyStr → Option PyStr
  | [] => none
  | c :: rest =>
    if isPrefixL ibanColonLit rest then some (acc ++ [c])
    else lazyUntilIban (acc ++ [c]) rest

/-- Backtracking over the greedy `\s+` of `ADDRESS_PATTERN`. -/
def addressTryW (r : PyStr) : Nat → Option PyStr
  | 0 => none
  | w + 1 =>
    match lazyUntilIban [] (r.drop (w + 1)) with
    | some g => some g
    | none => addressTryW r w

/-- Anchored `ADDRESS_PATTERN` (`Адрес\s+(.+?)(?=IBAN:)`, `re.DOTALL`). -/
def addressMatchAt (l : PyStr) : Option PyStr :=
  match stripLit adresLit l with
  | none => none
  | some r => addressTryW r (r.takeWhile pySpace).length

/-- Result dictionary of `extract_header`. -/
structure HeaderInfo where
  account_holder : AccountHolder
  iban : PyStr
  currency : PyStr
  period : Period
  statement_number : Nat
  statement_date : DateD
  opening_balance : Balance
deriving DecidableEq, Repr

/-- Account-holder and address block of `extract_header` (pure; code,
name and address default to the empty string). -/
def headerHolder (first_page : PyStr) : AccountHolder :=
  { code := match searchA holderMatchAt first_page with
      | some p => p.1
      | none => []
    name := match searchA holderMatchAt first_page with
      | some p => stripL p.2
      | none => []
    address := match searchA addressMatchAt first_page with
      | some g => joinSpace (pySplitWs (stripL g))
      | none => [] }

/-- Period block of `extract_header`: both dates default to *today* when
the pattern is absent. -/
def headerPeriod (today : DateD) (first_page : PyStr) :
    Except String (DateD × DateD) :=
  match searchA periodMatchAt first_page with
  | some (d1, m1, y1, d2, m2, y2) => do
    let f ← parse_date d1 m1 y1
    let t ← parse_date d2 m2 y2
    .ok (f, t)
  | none => .ok (today, today)

/-- Statement number/date block of `extract_header`: defaults are `0`
and *today*. -/
def headerStmt (today : DateD) (first_page : PyStr) :
    Except String (Nat × DateD) :=
  match searchA stmtMatchAt first_page with
  | some (n, d, m, y) => do
    let sd ← parse_date d m y
    .ok (natOfDigits n, sd)
  | none => .ok (0, today)

/-- Opening-balance block of `extract_header`: defaults to zero. -/
def headerOpening (first_page : PyStr) : Except String Balance :=
  match searchA openingMatchAt first_page with
  | some (g1, g2) => do
    let e ← parse_decimal g1
    let b ← parse_decimal g2
    .ok ⟨e, b⟩
  | none => .ok ⟨0, 0⟩

def eurCurrencyLit : PyStr := "EUR".data

/-- The method `UBBStatementExtractor.extract_header` (lines 235–310);
`today` models `date.today()`. -/
def extract_header (today : DateD) (pages_text : List PyStr) :
    Except String HeaderInfo := do
  let first_page := pages_text.headD []
  let fromTo ← headerPeriod today first_page
  let stmt ← headerStmt today first_page
  let opening_balance ← headerOpening first_page
  .ok { account_holder := headerHolder first_page
        iban := (searchA ibanMatchAt first_page).getD []
        currency := (searchA currencyMatchAt first_page).getD eurCurrencyLit
        period := ⟨fromTo.1, fromTo.2⟩
        statement_number := stmt.1
        statement_date := stmt.2
        opening_balance }

def bankNameLit : PyStr := "UBB".data

/-- The method `UBBStatementExtractor.parse` (lines 521–548): header,
footer, then transactions with `statement_year` taken from the period's
from-date year; `today` models `date.today()`. -/
def parse (today : DateD) (pages_text : List PyStr) :
    Except String BankStatement := do
  let header ← extract_header today pages_text
  let footer ← extract_footer pages_text
  let statement_year := header.period.from_date.year
  let transactions ← extract_transactions statement_year pages_text
  .ok { statement :=
          { bank := bankNameLit
            account_holder := header.account_holder
            iban := header.iban
            currency := header.currency
            period := header.period
            statement_number := header.statement_number
            statement_date := header.statement_date
            opening_balance := header.opening_balance
            closing_balance := footer.closing_balance
            turnover := footer.turnover
            accumulated_turnover := footer.accumulated_turnover }
        transactions }

/-! ### Claims about the segmenter -/

lemma dropWhile_head_false {α : Type} (p : α → Bool) (l : List α) :
    ∀ x xs, l.dropWhile p = x :: xs → p x = false := by
  induction l with
  | nil =>
    intro x xs h
    simp [List.dropWhile] at h
  | cons a t ih =>
    intro x xs h
    simp only [List.dropWhile] at h
    cases hpa : p a with
    | true =>
      rw [hpa] at h
      exact ih x xs h
    | false =>
      rw [hpa] at h
      injection h with h1 h2
      rw [← h1]
      exact hpa

lemma collectNoAmt_discard (ls : List PyStr)
    (h : (collectNoAmt ls).amt = none) :
    (collectNoAmt ls).rest = ls.dropWhile (fun l => (txDateMatch l).isNone) := by
  induction ls with
  | nil => simp [collectNoAmt, List.dropWhile]
  | cons l rest ih =>
    cases htm : txDateMatch l with
    | some v => simp [collectNoAmt, htm, List.dropWhile]
    | none =>
      cases ha : amountSearch l with
      | some g =>
        obtain ⟨st, g1, g2⟩ := g
        simp [collectNoAmt, htm, ha] at h
      | none =>
        by_cases hb : isBoilerplate1 l <;>
          simp only [collectNoAmt, htm, ha, hb, List.dropWhile, Option.isSome_none,
            Bool.false_eq_true, if_false, if_true, Option.isNone_none] at h ⊢ <;>
          exact ih h

/-- C3: when an amount-less transaction-start line is followed by lines
among which a new transaction start appears before any amount line, the
candidate is silently discarded — no `Transaction` is produced, no error
is raised, and scanning resumes exactly at the new start line (whose
head, when it exists, is a transaction-start line). -/
theorem segmenter_silent_discard (line : PyStr) (rest : List PyStr)
    (pd vd : PyStr) (e : Nat)
    (h1 : txDateMatch line = some (pd, vd, e))
    (h2 : amountSearch line = none)
    (h3 : (collectNoAmt rest).amt = none) :
    extractTxLoop (line :: rest) =
      extractTxLoop (rest.dropWhile (fun l => (txDateMatch l).isNone))
  ∧ (∀ l' rest',
      rest.dropWhile (fun l => (txDateMatch l).isNone) = l' :: rest' →
      (txDateMatch l').isSome = true) := by
  constructor
  · simp only [extractTxLoop, h1, h2, h3]
    rw [collectNoAmt_discard rest h3]
  · intro l' rest' hd
    have := dropWhile_head_false (fun l => (txDateMatch l).isNone) rest l' rest' hd
    simp only [Option.isNone_eq_false_iff, Option.isSome_iff_ne_none] at this
    simp [Option.isSome_iff_ne_none, this]

def discardLine : PyStr := "07/01/26 07/01 12345 НЕПЪЛЕН БЛОК БЕЗ СУМА".data

def discardRest : List PyStr :=
  ["НЯКАКЪВ РЕД".data,
   "08/01/26 08/01 9999 ТАКСА -1.00 EUR / -1.96 BGN".data]

/-- Witness for C3: a start line with no amount, one description line,
then a new start line — the candidate is dropped and scanning resumes at
the new start line. -/
theorem segmenter_silent_discard_witness :
    extractTxLoop (discardLine :: discardRest) =
      extractTxLoop (discardRest.dropWhile (fun l => (txDateMatch l).isNone))
  ∧ (∀ l' rest',
      discardRest.dropWhile (fun l => (txDateMatch l).isNone) = l' :: rest' →
      (txDateMatch l').isSome = true) :=
  segmenter_silent_discard discardLine discardRest
    ['0', '7', '/', '0', '1', '/', '2', '6'] ['0', '7', '/', '0', '1'] 15
    (by with_unfolding_all decide) (by with_unfolding_all decide)
    (by with_unfolding_all decide)

lemma collectTrailing_spec (ls : List PyStr) :
    (collectTrailing ls).desc =
      (ls.takeWhile (fun l => (txDateMatch l).isNone)).filter
        (fun l => !isBoilerplate2 l)
  ∧ (collectTrailing ls).rest =
      ls.dropWhile (fun l => (txDateMatch l).isNone) := by
  induction ls with
  | nil => simp [collectTrailing, List.takeWhile, List.dropWhile]
  | cons l rest ih =>
    cases htm : txDateMatch l with
    | some v => simp [collectTrailing, htm, List.takeWhile, List.dropWhile]
    | none =>
      by_cases hb : isBoilerplate2 l <;>
        simp [collectTrailing, htm, hb, List.takeWhile, List.dropWhile,
          List.filter_cons, ih.1, ih.2]

/-- C5: a transaction-start line that itself carries the trailing amount
closes on that same line — its sole initial description line is the
stripped text between the date fields and the amount start — and the
subsequent non-boilerplate lines up to the next transaction start are
appended to its description list; for any transaction built from a
description list, the raw description is the space-join of that list and
the counterparty extractor runs on that same list with the transaction's
type. -/
theorem amount_on_start_line_spec (line : PyStr) (rest : List PyStr)
    (pd vd : PyStr) (e i : Nat) (g1 g2 : PyStr)
    (h1 : txDateMatch line = some (pd, vd, e))
    (h2 : amountSearch line = some (i, g1, g2)) :
    extractTxLoop (line :: rest) =
      (do
        let tx ← buildTransaction pd vd
          (stripL ((line.take i).drop e) ::
            (rest.takeWhile (fun l => (txDateMatch l).isNone)).filter
              (fun l => !isBoilerplate2 l)) g1 g2
        let txs ← extractTxLoop (rest.dropWhile (fun l => (txDateMatch l).isNone))
        .ok (tx :: txs))
  ∧ (∀ pd2 vd2 dls g3 g4 tx,
      buildTransaction pd2 vd2 dls g3 g4 = .ok tx →
      tx.raw_description = joinSpace dls
      ∧ tx.counterparty = extract_counterparty dls tx.type) := by
  constructor
  · simp only [extractTxLoop, h1, h2]
    rw [(collectTrailing_spec rest).1, (collectTrailing_spec rest).2]
  · intro pd2 vd2 dls g3 g4 tx hb
    unfold buildTransaction at hb
    simp only [Bind.bind] at hb
    cases hp : parse_posting_date pd2 with
    | error er => simp [hp, Except.bind] at hb
    | ok pdate =>
      simp only [hp, Except.bind] at hb
      cases hv : parse_short_date vd2 pdate.year with
      | error er => simp [hv, Except.bind] at hb
      | ok vdate =>
        simp only [hv, Except.bind] at hb
        cases he : parse_decimal g3 with
        | error er => simp [he, Except.bind] at hb
        | ok eurv =>
          simp only [he, Except.bind] at hb
          cases hg : parse_decimal g4 with
          | error er => simp [hg, Except.bind] at hb
          | ok bgnv =>
            simp only [hg, Except.bind, Except.ok.injEq] at hb
            rw [← hb]
            exact ⟨rfl, rfl⟩

def amountLineW : PyStr :=
  "06/01/26 06/01 70610UBB7654321 КАРТОВА ТРАНЗАКЦИЯ -55.00 EUR / -107.57 BGN".data

def trailingRestW : List PyStr :=
  ["КАРТОВА ТРАНЗАКЦИЯ".data,
   "MERCHANT-SOFIA-BG".data,
   "07/01/26 07/01 1 ТАКСА -1.00 EUR / -1.96 BGN".data]

/-- Witness for C5 at a card transaction whose start line carries the
amount; the two trailing counterparty lines are appended. -/
theorem amount_on_start_line_spec_witness :
    extractTxLoop (amountLineW :: trailingRestW) =
      (do
        let tx ← buildTransaction ['0', '6', '/', '0', '1', '/', '2', '6']
          ['0', '6', '/', '0', '1']
          (stripL ((amountLineW.take 50).drop 15) ::
            (trailingRestW.takeWhile (fun l => (txDateMatch l).isNone)).filter
              (fun l => !isBoilerplate2 l))
          ['-', '5', '5', '.', '0', '0'] ['-', '1', '0', '7', '.', '5', '7']
        let txs ← extractTxLoop
          (trailingRestW.dropWhile (fun l => (txDateMatch l).isNone))
        .ok (tx :: txs))
  ∧ (∀ pd2 vd2 dls g3 g4 tx,
      buildTransaction pd2 vd2 dls g3 g4 = .ok tx →
      tx.raw_description = joinSpace dls
      ∧ tx.counterparty = extract_counterparty dls tx.type) :=
  amount_on_start_line_spec amountLineW trailingRestW
    ['0', '6', '/', '0', '1', '/', '2', '6'] ['0', '6', '/', '0', '1'] 15 50
    ['-', '5', '5', '.', '0', '0'] ['-', '1', '0', '7', '.', '5', '7']
    (by with_unfolding_all decide) (by with_unfolding_all decide)

/-! ### Claim about the type classifier (C4) -/

/-- Specification-side evaluator: ordered `(keywords, type)` rules,
first match wins, `UNKNOWN` when nothing matches. -/
def firstMatchType : List (List PyStr × TransactionType) → PyStr → TransactionType
  | [], _ => .UNKNOWN
  | r :: rs, u =>
    if r.1.any (fun kw => containsSub kw u) then r.2 else firstMatchType rs u

/-- The classifier's keyword rules, in source order. -/
def typeRules : List (List PyStr × TransactionType) :=
  [([kwSepaIn], .SEPA_INCOMING),
   ([kwOutFx, kwOut], .SEPA_OUTGOING),
   ([kwCard], .CARD_TRANSACTION),
   ([kwFeeCollected], .FEE),
   ([kwFeeOut, kwFee], .TRANSFER_FEE),
   ([kwTransfer], .INTERNAL_TRANSFER),
   ([kwSellFx, kwBuyFx], .CURRENCY_EXCHANGE)]

/-- C4: the classifier is exactly the ordered first-match evaluation of
`typeRules` on the upper-cased raw description; in particular a
description containing both the incoming-transfer keyword and the (later)
generic-transfer keyword is classified by the earlier rule. -/
theorem detect_type_first_match :
    (∀ d : PyStr, detect_transaction_type d = firstMatchType typeRules (pyUpper d))
  ∧ (∀ d : PyStr, containsSub kwSepaIn (pyUpper d) = true →
      containsSub kwTransfer (pyUpper d) = true →
      detect_transaction_type d = .SEPA_INCOMING) := by
  constructor
  · intro d
    simp only [detect_transaction_type, typeRules, firstMatchType, List.any_cons,
      List.any_nil, Bool.or_false]
  · intro d hin htr
    simp [detect_transaction_type, hin]

def sepaDescW : PyStr := "СЕПА ПОЛУЧЕН ПРЕВОД".data

/-- Witness for C4: a description containing both the incoming keyword
and the generic transfer keyword is classified `SEPA_INCOMING`. -/
theorem detect_type_first_match_witness :
    detect_transaction_type sepaDescW = .SEPA_INCOMING :=
  detect_type_first_match.2 sepaDescW (by with_unfolding_all decide)
    (by with_unfolding_all decide)

/-! ### Claim about two-digit year resolution (C7) -/

def postingStr99 : PyStr := ['0', '5', '/', '0', '1', '/', '9', '9']

/-- C7 (code behavior): `extract_transactions` ignores its
`statement_year` argument entirely — the result is identical for any two
values — and `_parse_posting_date` fixes the century as `2000 + YY`
(`05/01/99` becomes 2099-01-05), so two-digit posting years are *not*
resolved against `Period.from.year`. -/
theorem extract_transactions_ignores_year :
    (∀ y1 y2 : Nat, ∀ pages_text : List PyStr,
      extract_transactions y1 pages_text = extract_transactions y2 pages_text)
  ∧ parse_posting_date postingStr99 = .ok ⟨2099, 1, 5⟩ :=
  ⟨fun _ _ _ => rfl, by with_unfolding_all decide⟩

/-! ### Claim about graceful degradation (C8) -/

def malformedOpeningPage : PyStr := "Начално салдо: , EUR / , BGN".data

/-- C8 (code behavior): on a page whose opening-balance amounts are bare
separators, `OPENING_BALANCE_PATTERN` *matches* (groups `,`), cleaning
leaves the empty string, and `Decimal` raises `InvalidOperation`;
`extract_header` propagates the exception instead of degrading to the
zero-balance default — for every current date. -/
theorem extract_header_raises_on_malformed (today : DateD) :
    extract_header today [malformedOpeningPage] = .error decErr := by
  with_unfolding_all rfl

/-! ### Claim about determinism (C9) -/

def day1 : DateD := ⟨2026, 1, 1⟩

def day2 : DateD := ⟨2026, 1, 2⟩

/-- Counterexample to C9 as stated: when the single page is empty, the
period (and statement date) default to `date.today()`, so the very same
input text parses to different outputs on different days — the output is
not a function of the input text alone. -/
theorem parse_depends_on_today :
    ((parse day1 [[]]).toOption.map fun s => s.statement.period.from_date) = some day1
  ∧ ((parse day2 [[]]).toOption.map fun s => s.statement.period.from_date) = some day2
  ∧ parse day1 [[]] ≠ parse day2 [[]] := by
  refine ⟨?_, ?_, ?_⟩ <;> with_unfolding_all decide

lemma headerPeriod_today_irrelevant (d1 d2 : DateD) (p : PyStr)
    (h : (searchA periodMatchAt p).isSome = true) :
    headerPeriod d1 p = headerPeriod d2 p := by
  obtain ⟨v, hv⟩ := Option.isSome_iff_exists.mp h
  obtain ⟨a, b, c, d, e, f⟩ := v
  unfold headerPeriod
  rw [hv]

lemma headerStmt_today_irrelevant (d1 d2 : DateD) (p : PyStr)
    (h : (searchA stmtMatchAt p).isSome = true) :
    headerStmt d1 p = headerStmt d2 p := by
  obtain ⟨v, hv⟩ := Option.isSome_iff_exists.mp h
  obtain ⟨a, b, c, d⟩ := v
  unfold headerStmt
  rw [hv]

/-- C9 (amended): whenever the period pattern and the statement
number/date pattern both match on the first page, the parse result is a
function of the page texts alone — independent of the modelled current
date (parsing is a pure function, so equal inputs always give equal
serialized outputs). -/
theorem parse_deterministic_when_header_matches
    (d1 d2 : DateD) (pages_text : List PyStr)
    (h1 : (searchA periodMatchAt (pages_text.headD [])).isSome = true)
    (h2 : (searchA stmtMatchAt (pages_text.headD [])).isSome = true) :
    parse d1 pages_text = parse d2 pages_text := by
  have hh : extract_header d1 pages_text = extract_header d2 pages_text := by
    simp only [extract_header]
    rw [headerPeriod_today_irrelevant d1 d2 _ h1,
      headerStmt_today_irrelevant d1 d2 _ h2]
  simp only [parse]
  rw [hh]

def headerPageW : PyStr :=
  ("Период на извлечението: ОТ 01 ЯНУ 2026 ДО 31 ЯНУ 2026\nПореден номер / Дата: 12 / 31 ЯНУ 2026").data

/-- Witness for the amended C9 on a page carrying both header patterns. -/
theorem parse_deterministic_when_header_matches_witness :
    parse day1 [headerPageW] = parse day2 [headerPageW] :=
  parse_deterministic_when_header_matches day1 day2 [headerPageW]
    (by with_unfolding_all decide) (by with_unfolding_all decide)

end UBB
